import Mathlib

/-!
Verification development for the "Proje" shipment-tracking server.

The repository ships two variants of the same `server.js`:
* the base variant (`src/server.js`), and
* the enhanced variant (`src/unnamed/part_000`, "ENHANCED AMAZON SCRAPING CONCEPT").

Where the two variants agree the embedding has a single definition; where they
differ, both variants are embedded side by side (suffix `Enh` marks the
enhanced variant).  Machine integers and timestamps are modelled as `Int`
milliseconds (`Date.getTime` values); `Date.toISOString` is an injective,
monotone rendering of the instant, so ordering claims are stated directly on
the integer timestamps.  Strings are Lean `String`s; JavaScript regular
expressions are translated into executable character-list matchers.
-/

namespace Proje

/-! ## Carrier detection (`detectCarrier`, both variants)

Each JavaScript regex `^...$` is translated into a decidable whole-string
matcher over the character list of the identifier. -/

/-- Character class `[A-Za-z0-9]` (Lean's `Char.isAlphanum` is exactly
ASCII letters and digits). -/
def alnumChar (c : Char) : Bool := c.isAlphanum

/-- Character class `[0-9A-Z]` of the base AMAZON rule (no `/i` flag). -/
def amzUpperChar (c : Char) : Bool := c.isDigit || c.isUpper

/-- Character class `[0-9A-Z]` under the `/i` flag of the enhanced AMAZON
rule, i.e. digits and ASCII letters of either case. -/
def amzAnyChar (c : Char) : Bool := c.isDigit || c.isUpper || c.isLower

/-- Rule UPS, regex `^(1Z|1z)[A-Za-z0-9]{16}$`.  (The enhanced variant adds `/i`,
which does not change the matched language: the leading digit is caseless and
both `Z` and `z` are already allowed.) -/
def upsMatch (l : List Char) : Bool :=
  l.length == 18 && l.get? 0 == some '1' &&
    (l.get? 1 == some 'Z' || l.get? 1 == some 'z') &&
    (l.drop 2).all alnumChar

/-- Rule FEDEX, regex `^([0-9]{12}|[0-9]{15})$` (identical in both variants). -/
def fedexMatch (l : List Char) : Bool :=
  (l.length == 12 || l.length == 15) && l.all Char.isDigit

/-- Rule DHL, regex `^[A-Za-z]{2}[0-9]{9}[A-Za-z]{2}$`.  (`/i` in the enhanced
variant changes nothing: `[A-Za-z]` is already caseless.) -/
def dhlMatch (l : List Char) : Bool :=
  l.length == 13 && (l.take 2).all Char.isAlpha &&
    ((l.drop 2).take 9).all Char.isDigit && (l.drop 11).all Char.isAlpha

/-- Rule USPS, regex `^9[2-5][0-9]{20,22}$` (the enhanced variant only adds a
redundant capture group). -/
def uspsMatch (l : List Char) : Bool :=
  (l.length == 22 || l.length == 23 || l.length == 24) &&
    l.get? 0 == some '9' &&
    (match l.get? 1 with
     | some c => ['2', '3', '4', '5'].contains c
     | none => false) &&
    (l.drop 2).all Char.isDigit

/-- Shape `^X{3}-X{7}-X{7}$` of the AMAZON rule, parameterised by the
character class `p` used for `X`. -/
def amazonShape (p : Char → Bool) (l : List Char) : Bool :=
  l.length == 19 && (l.take 3).all p && l.get? 3 == some '-' &&
    ((l.drop 4).take 7).all p && l.get? 11 == some '-' &&
    (l.drop 12).all p

/-- Carrier tags; `detectCarrier` returning `none` models the JavaScript
`null` ("could not detect"). -/
inductive Carrier where
  | ups | fedex | dhl | usps | amazon
deriving DecidableEq, Repr

/-- The lower-case carrier string returned by `detectCarrier` in the source
(`'ups'`, `'fedex'`, ...). -/
def carrierStr : Carrier → String
  | .ups => "ups"
  | .fedex => "fedex"
  | .dhl => "dhl"
  | .usps => "usps"
  | .amazon => "amazon"

/-- Function `detectCarrier` of the base variant (`src/server.js` lines 123–130): an
ordered if-chain of the five rules; the AMAZON rule has no `/i` flag, so its
letters must be upper case. -/
def detectCarrier (s : String) : Option Carrier :=
  if upsMatch s.data then some .ups
  else if fedexMatch s.data then some .fedex
  else if dhlMatch s.data then some .dhl
  else if uspsMatch s.data then some .usps
  else if amazonShape amzUpperChar s.data then some .amazon
  else none

/-- Function `detectCarrier` of the enhanced variant (`src/unnamed/part_000` lines
125–132): same chain, but the AMAZON rule carries `/i` and is caseless. -/
def detectCarrierEnh (s : String) : Option Carrier :=
  if upsMatch s.data then some .ups
  else if fedexMatch s.data then some .fedex
  else if dhlMatch s.data then some .dhl
  else if uspsMatch s.data then some .usps
  else if amazonShape amzAnyChar s.data then some .amazon
  else none

/-- The ordered rule list of the base variant, for stating the
first-match-wins contract. -/
def detectRules : List ((List Char → Bool) × Carrier) :=
  [(upsMatch, .ups), (fedexMatch, .fedex), (dhlMatch, .dhl),
   (uspsMatch, .usps), (amazonShape amzUpperChar, .amazon)]

/-- The ordered rule list of the enhanced variant. -/
def detectRulesEnh : List ((List Char → Bool) × Carrier) :=
  [(upsMatch, .ups), (fedexMatch, .fedex), (dhlMatch, .dhl),
   (uspsMatch, .usps), (amazonShape amzAnyChar, .amazon)]

/-- Tag of the first rule in `rules` whose matcher accepts the identifier. -/
def firstMatch (rules : List ((List Char → Bool) × Carrier)) (l : List Char) :
    Option Carrier :=
  (rules.find? (fun r => r.1 l)).map (·.2)

/-! ## The generic/simulated strategy (`getGenericTracking`, identical in both
variants)

Timestamps are the `Date.getTime` millisecond values; `Date.toISOString` is
injective and monotone, so chronological claims are stated on these integers.
`Date.toLocaleDateString` is modelled at civil-day granularity by
`localeDateString`: two instants render equally iff they fall in the same
(UTC) day.  The coin flip `Math.random() > 0.5` and the clock `new Date()`
are inputs of the model (`delivered`, `now`). -/

/-- One millisecond-count day, `24 * 3600 * 1000`. -/
def dayMs : Int := 24 * 3600 * 1000

/-- Coordinate pairs `{lat, lon}`; the decimal literals of the source are
exact rationals. -/
structure Geo where
  lat : ℚ
  lon : ℚ
deriving DecidableEq, Repr

/-- An entry of the `activity` array produced by `getGenericTracking`. -/
structure ActivityEvent where
  status : String
  location : String
  timestamp : Int
  geo : Option Geo
deriving DecidableEq, Repr

/-- The normalized result object returned by the strategies and stored in the
cache. -/
structure TrackingResult where
  carrier : String
  trackingNumber : String
  status : String
  estimatedDelivery : String
  activity : List ActivityEvent
deriving DecidableEq, Repr

/-- The `geoCoords` object literal of `getGenericTracking`; indexing with an
unknown key yields `undefined`, i.e. `none`. -/
def geoCoords (loc : String) : Option Geo :=
  if loc = "Los Angeles, CA" then some ⟨34.05, -118.24⟩
  else if loc = "Denver, CO" then some ⟨39.73, -104.99⟩
  else if loc = "Chicago, IL" then some ⟨41.87, -87.62⟩
  else if loc = "New York, NY" then some ⟨40.71, -74.00⟩
  else none

/-- Model of `Date.toLocaleDateString()` at civil-day granularity: the day
index of the instant, rendered as a string. -/
def localeDateString (t : Int) : String := toString (t.ediv dayMs)

/-- Function `getGenericTracking` (base lines 132–165, enhanced lines 134–168 —
textually identical).  Three stops are stamped at `now−3d`, `now−2d`,
`now−1d`, a final stop (`"Delivered"` or `"Out for delivery"`, both at
`now.toISOString()`) is pushed, and the array is reversed in place before
being returned; `estimatedDelivery` uses today's date when delivered and —
via the mutating `now.setDate(now.getDate() + 1)` — tomorrow's otherwise
(the mutation happens after every activity timestamp has been taken). -/
def getGenericTracking (carrier trackingNumber : String) (delivered : Bool)
    (now : Int) : TrackingResult :=
  let locations : List String :=
    ["Los Angeles, CA", "Denver, CO", "Chicago, IL", "New York, NY"]
  let finalLocation := locations.getD (locations.length - 1) ""
  let activity : List ActivityEvent :=
    [⟨"Package received by carrier", locations.getD 0 "", now - 3 * dayMs,
        geoCoords (locations.getD 0 "")⟩,
     ⟨"Departed from facility", locations.getD 1 "", now - 2 * dayMs,
        geoCoords (locations.getD 1 "")⟩,
     ⟨"Arrived at destination hub", locations.getD 2 "", now - 1 * dayMs,
        geoCoords (locations.getD 2 "")⟩]
  let activity := activity ++
    [if delivered then
       ⟨"Delivered", finalLocation, now, geoCoords finalLocation⟩
     else
       ⟨"Out for delivery", finalLocation, now, geoCoords finalLocation⟩]
  { carrier := carrier.toUpper
    trackingNumber := trackingNumber
    status := if delivered then "Delivered" else "In Transit"
    estimatedDelivery :=
      if delivered then localeDateString now else localeDateString (now + dayMs)
    activity := activity.reverse }

/-! ## The `/api/track` route handler (both variants)

The handler is polymorphic in the tracking payload (JavaScript never inspects
it): the dispatched strategy call is modelled by the `fetch` argument — the
`Except` outcome that `getGenericTracking` / `getAmazonTracking(WithLogin)`
would produce on this call — and `strategyCalls` records whether that
dispatch happened (`0` or `1`).  The cache is the `trackingCache` map;
`broadcasts` lists the `tracking_update` events the handler `io.emit`s. -/

/-- A `trackingCache` entry: `{ data, expiry }`. -/
structure CacheEntry (α : Type) where
  data : α
  expiry : Int
deriving DecidableEq

/-- The `trackingCache` map, keyed by `"carrier:trackingNumber"`. -/
def Cache (α : Type) : Type := String → Option (CacheEntry α)

/-- Operation `Map.set`: replace or add the entry for one key. -/
def cacheSet {α : Type} (c : Cache α) (key : String) (e : CacheEntry α) :
    Cache α :=
  fun k => if k = key then some e else c k

/-- The HTTP outcome of the handler: `res.json` (200), `res.status(400)` or
`res.status(500)`. -/
inductive TrackResponse (α : Type) where
  | ok (body : α)
  | badRequest (error : String)
  | serverError (error : String)
deriving DecidableEq

/-- Payload of an `io.emit('tracking_update', ...)` broadcast. -/
structure TrackingUpdate (α : Type) where
  trackingNumber : String
  carrier : String
  data : α
deriving DecidableEq

/-- Everything one `POST /api/track` request produces: the response, the
cache afterwards, how many times a strategy was invoked, and the
`tracking_update` broadcasts emitted. -/
structure TrackOutcome (α : Type) where
  response : TrackResponse α
  cache : Cache α
  strategyCalls : Nat
  broadcasts : List (TrackingUpdate α)

/-- Constant `CACHE_TTL = 10 * 60 * 1000` — the fixed 10-minute TTL. -/
def CACHE_TTL : Int := 10 * 60 * 1000

/-- The enhanced variant's handler (`part_000` lines 78–113): empty
`trackingNumber` is falsy → 400; undetected carrier → 400; a cache entry
with `expiry > Date.now()` is served as-is (no strategy call, no broadcast);
otherwise the strategy outcome is consumed — on success the result is
cached for `CACHE_TTL` and one `tracking_update` is emitted, on failure a
500 carries `error.message || 'An error occurred while tracking.'` and
neither cache nor broadcast happens. -/
def trackHandlerEnh {α : Type} (cache : Cache α) (trackingNumber : String)
    (now : Int) (fetch : Except String α) : TrackOutcome α :=
  if trackingNumber = "" then
    ⟨.badRequest "Tracking number is required.", cache, 0, []⟩
  else
    match detectCarrierEnh trackingNumber with
    | none =>
        ⟨.badRequest ("Could not detect carrier for \"" ++ trackingNumber ++ "\"."),
         cache, 0, []⟩
    | some carrier =>
        let cacheKey := carrierStr carrier ++ ":" ++ trackingNumber
        match cache cacheKey with
        | some entry =>
            if now < entry.expiry then ⟨.ok entry.data, cache, 0, []⟩
            else
              match fetch with
              | .ok d =>
                  ⟨.ok d, cacheSet cache cacheKey ⟨d, now + CACHE_TTL⟩, 1,
                   [⟨trackingNumber, carrierStr carrier, d⟩]⟩
              | .error m =>
                  ⟨.serverError (if m = "" then "An error occurred while tracking." else m),
                   cache, 1, []⟩
        | none =>
            match fetch with
            | .ok d =>
                ⟨.ok d, cacheSet cache cacheKey ⟨d, now + CACHE_TTL⟩, 1,
                 [⟨trackingNumber, carrierStr carrier, d⟩]⟩
            | .error m =>
                ⟨.serverError (if m = "" then "An error occurred while tracking." else m),
                 cache, 1, []⟩

/-- The base variant's handler (`server.js` lines 77–111): identical control
flow but it uses the base `detectCarrier` and contains no `io.emit` at all,
so `broadcasts` is `[]` on every path. -/
def trackHandlerBase {α : Type} (cache : Cache α) (trackingNumber : String)
    (now : Int) (fetch : Except String α) : TrackOutcome α :=
  if trackingNumber = "" then
    ⟨.badRequest "Tracking number is required.", cache, 0, []⟩
  else
    match detectCarrier trackingNumber with
    | none =>
        ⟨.badRequest ("Could not detect carrier for \"" ++ trackingNumber ++ "\"."),
         cache, 0, []⟩
    | some carrier =>
        let cacheKey := carrierStr carrier ++ ":" ++ trackingNumber
        match cache cacheKey with
        | some entry =>
            if now < entry.expiry then ⟨.ok entry.data, cache, 0, []⟩
            else
              match fetch with
              | .ok d =>
                  ⟨.ok d, cacheSet cache cacheKey ⟨d, now + CACHE_TTL⟩, 1, []⟩
              | .error m =>
                  ⟨.serverError (if m = "" then "An error occurred while tracking." else m),
                   cache, 1, []⟩
        | none =>
            match fetch with
            | .ok d =>
                ⟨.ok d, cacheSet cache cacheKey ⟨d, now + CACHE_TTL⟩, 1, []⟩
            | .error m =>
                ⟨.serverError (if m = "" then "An error occurred while tracking." else m),
                 cache, 1, []⟩

/-- A cache lookup at `key` misses at `now`: either no entry, or the stored
expiry is not in the future (`expiry > Date.now()` fails). -/
def cacheMiss {α : Type} (cache : Cache α) (key : String) (now : Int) : Prop :=
  ∀ e : CacheEntry α, cache key = some e → e.expiry ≤ now

/-! ## The authenticated-provider strategy (enhanced variant only)

`getAmazonTrackingWithLogin` (lines 262–333) and `ensureAmazonSession`
(lines 171–260).  The DOM/selector layer is the opaque "page parser"
capability: what the selectors *extract* from the fetched page is an input
of the model (`AmzPage`), and what the login responses *contain* is the
input `AmzLoginEnv`.  Everything downstream of those extractions is
translated faithfully. -/

/-- JavaScript `a || b` on strings: `b` when `a` is absent or empty. -/
def jsOr (v : Option String) (dflt : String) : String :=
  match v with
  | some s => if s = "" then dflt else s
  | none => dflt

/-- Whether the first list starts the second (helper for `includes`). -/
def leadsWith : List Char → List Char → Bool
  | [], _ => true
  | _ :: _, [] => false
  | a :: as, b :: bs => a == b && leadsWith as bs

/-- Operation `hay.includes(needle)` on character lists. -/
def containsSub (hay needle : List Char) : Bool :=
  match hay with
  | [] => needle.isEmpty
  | _ :: t => leadsWith needle hay || containsSub t needle

/-- Operation `String.toLowerCase()` for the ASCII strings involved (Lean's
`Char.toLower` is exactly ASCII lowercasing). -/
def jsToLower (s : String) : String := s.map Char.toLower

/-- Function `geocodeLocation` (lines 335–344): case-insensitive substring lookup in
the in-memory city table; empty/unknown locations yield `null`. -/
def geocodeLocation (locationString : String) : Option Geo :=
  if locationString = "" then none
  else if containsSub (jsToLower locationString).data "los angeles".data then
    some ⟨34.05, -118.24⟩
  else if containsSub (jsToLower locationString).data "chicago".data then
    some ⟨41.87, -87.62⟩
  else if containsSub (jsToLower locationString).data "new york".data then
    some ⟨40.71, -74.00⟩
  else if containsSub (jsToLower locationString).data "memphis".data then
    some ⟨35.1495, -90.0490⟩
  else none

/-- What the event-card selectors extract from one tracking-event node:
`none` models a missing node / missing text (the source then falls back via
`|| default`). -/
structure AmzPageEvent where
  description : Option String
  location : Option String
  timestamp : Option String
deriving DecidableEq

/-- What the page-level selectors extract from the fetched order-details
page: `statusText`/`deliveryEstimate`/`carrierName` are `none` when the
corresponding `querySelector` finds no element, and `events` lists the
nodes found by the first event selector that yields any. -/
structure AmzPage where
  statusText : Option String
  deliveryEstimate : Option String
  carrierName : Option String
  events : List AmzPageEvent
deriving DecidableEq

/-- An entry of the `activity` array built by the Amazon strategy (its
`timestamp` is scraped text, not an instant). -/
structure AmzActivityEvent where
  status : String
  description : String
  location : String
  timestamp : String
  geo : Option Geo
deriving DecidableEq

/-- The result object of the Amazon strategy. -/
structure AmzTrackingResult where
  carrier : String
  trackingNumber : String
  status : String
  estimatedDelivery : String
  activity : List AmzActivityEvent
deriving DecidableEq

/-- The parsing tail of `getAmazonTrackingWithLogin` (lines 278–332), i.e.
everything after the page fetch succeeded.  `nowIso` is the
`new Date().toISOString()` the synthesized event would carry.  Note there is
no failure path in this region: when zero event nodes were found the
returned `activity` is the single synthesized event, whatever
`statusText` is (`"Status not found"` when no status element existed —
the `activity.length === 0 && statusText === "Status not found"` case only
logs a warning). -/
def amazonFromPage (orderId : String) (nowIso : String) (page : AmzPage) :
    AmzTrackingResult :=
  let statusText := page.statusText.getD "Status not found"
  let deliveryEstimate := page.deliveryEstimate.getD "N/A"
  let carrierName := page.carrierName.getD "Amazon Logistics"
  let activity := page.events.map (fun e =>
    let description := jsOr e.description "Event details missing"
    let location := jsOr e.location ""
    let timestamp := jsOr e.timestamp ""
    { status := if location = "" then description else location
      description := description
      location := location
      timestamp := timestamp
      geo := geocodeLocation location : AmzActivityEvent })
  { carrier := carrierName
    trackingNumber := orderId
    status := statusText
    estimatedDelivery := deliveryEstimate
    activity :=
      if activity.length > 0 then activity.reverse
      else
        [{ status := statusText
           description := "Current status: " ++ statusText
           location := ""
           timestamp := nowIso
           geo := none }] }

/-! ## The Amazon session (`ensureAmazonSession`, enhanced variant only)

The session state of the source is the single process-wide boolean
`amazonSessionActive`.  The network responses the login flow inspects are
the input `AmzLoginEnv`; each field records what one inspected response
contained. -/

/-- Observable content of the login-flow responses. -/
structure AmzLoginEnv where
  /-- `AMZ_USER` and `AMZ_PASS` are both configured. -/
  credsConfigured : Bool
  /-- the `/ap/signin` page contains `form[name="signIn"]`. -/
  initialFormPresent : Bool
  /-- the `/gp/css/order-history` fallback page contains the form. -/
  fallbackFormPresent : Bool
  /-- the response to the email submission contains the form again. -/
  emailRespFormPresent : Bool
  /-- that response contains `"Enter your password"`. -/
  emailRespPasswordPrompt : Bool
  /-- that response contains `"auth-mfa-otpcode"` (an MFA/OTP challenge). -/
  emailRespMfaChallenge : Bool
  /-- that response contains `"/errors/validateCaptcha"` (a captcha). -/
  emailRespCaptchaChallenge : Bool
  /-- the post-login `/gp/css/order-history` check contains `redirectGet`
  or `/ap/signin` (login verification failed). -/
  verifyRejected : Bool
deriving DecidableEq

/-- Message `"Amazon credentials (AMZ_USER, AMZ_PASS) not configured in .env file."`
— thrown before the `try` block, hence never wrapped. -/
def noCredsMsg : String :=
  "Amazon credentials (AMZ_USER, AMZ_PASS) not configured in .env file."

/-- Error message of the missing-login-form path. -/
def noFormMsg : String := "Could not find Amazon login form (initial attempt)."

/-- Error message of the MFA/OTP-challenge path. -/
def mfaMsg : String :=
  "Amazon MFA/OTP required. Automated login with OTP is complex and not implemented in this demo. Please resolve on Amazon's website."

/-- Error message of the captcha-challenge path. -/
def captchaMsg : String :=
  "Amazon Captcha challenge. Please resolve on Amazon's website."

/-- Error message of the unrecognized-intermediate-page path. -/
def unexpectedPageMsg : String :=
  "Amazon login flow changed or encountered an unexpected page after email submission."

/-- Error message of the failed post-login verification. -/
def verifyFailMsg : String :=
  "Amazon login failed. Check credentials or solve potential Captcha/MFA on Amazon's website."

/-- The TypeError raised by the `"Enter your password"` fallthrough: the code
keeps `form = null` and immediately calls `extractHiddenInputs(form)`. -/
def nullFormCrashMsg : String :=
  "Cannot read properties of null (reading 'querySelectorAll')"

/-- The `catch` clause rethrows every failure wrapped as
`` `Amazon login process failed: ${error.message}` ``. -/
def wrapLoginErr (m : String) : String := "Amazon login process failed: " ++ m

/-- The body of the `try` block of `ensureAmazonSession` (lines 184–251):
find the sign-in form (with the order-history fallback), submit the email,
dispatch on what the response contains, submit the password, and verify by
fetching an authenticated page. -/
def loginFlow (env : AmzLoginEnv) : Except String Unit :=
  if !env.initialFormPresent && !env.fallbackFormPresent then .error noFormMsg
  else if env.emailRespFormPresent then
    if env.verifyRejected then .error verifyFailMsg else .ok ()
  else if env.emailRespPasswordPrompt then .error nullFormCrashMsg
  else if env.emailRespMfaChallenge then .error mfaMsg
  else if env.emailRespCaptchaChallenge then .error captchaMsg
  else .error unexpectedPageMsg

deriving instance DecidableEq for Except

/-- Result of one `ensureAmazonSession` call: the value of
`amazonSessionActive` afterwards, whether the login flow was entered at all
(the guard `if (amazonSessionActive) return true` was passed), and the
outcome delivered to the caller. -/
structure SessionResult where
  active : Bool
  loginAttempted : Bool
  outcome : Except String Unit
deriving DecidableEq

/-- Function `ensureAmazonSession` (lines 172–260): an already-active flag returns
immediately; otherwise missing credentials throw (unwrapped, before the
`try`); otherwise the login flow runs — success sets the flag, any failure
clears it and rethrows wrapped. -/
def ensureAmazonSession (active : Bool) (env : AmzLoginEnv) : SessionResult :=
  if active then ⟨true, false, .ok ()⟩
  else if !env.credsConfigured then ⟨false, true, .error noCredsMsg⟩
  else
    match loginFlow env with
    | .ok () => ⟨true, true, .ok ()⟩
    | .error m => ⟨false, true, .error (wrapLoginErr m)⟩

/-! ## Connection registry and broadcasts (Socket.IO handlers)

`liveUsers` is a JavaScript `Map` (insertion-ordered), modelled as an
association list.  `Emission.toSender` is `socket.emit` (the sender only);
`Emission.toOthers` is `socket.broadcast.emit` (every other currently
connected socket, not the sender). -/

/-- A `liveUsers` record.  The base variant's `join` stores no
latitude/longitude keys and the enhanced variant stores them as `null`;
both are `none` here, and `send-location` sets them. -/
structure LiveUser where
  id : String
  username : String
  avatar : String
  latitude : Option ℚ
  longitude : Option ℚ
deriving DecidableEq

/-- The `liveUsers` map: connection id → record, in insertion order. -/
def Registry : Type := List (String × LiveUser)

/-- Operation `Map.get`. -/
def regGet (reg : Registry) (k : String) : Option LiveUser :=
  (reg.find? (fun p => p.1 == k)).map (·.2)

/-- Operation `Map.set`: update in place (keeping the position) or append. -/
def regSet (reg : Registry) (k : String) (v : LiveUser) : Registry :=
  match reg with
  | [] => [(k, v)]
  | (k', v') :: rest =>
      if k' = k then (k, v) :: rest else (k', v') :: regSet rest k v

/-- Operation `Array.from(liveUsers.values())`. -/
def regValues (reg : Registry) : List LiveUser := reg.map (·.2)

/-- The socket events the modelled handlers emit. -/
inductive SocketEvent where
  | currentUsers (users : List LiveUser)
  | userJoined (u : LiveUser)
  | receiveLocation (u : LiveUser)
deriving DecidableEq

/-- Where one emission goes: `socket.emit` (sender only) or
`socket.broadcast.emit` (every other connected socket). -/
inductive Emission where
  | toSender (e : SocketEvent)
  | toOthers (e : SocketEvent)
deriving DecidableEq

/-- The avatar URL minted at join. -/
def avatarFor (sid : String) : String := "https://i.pravatar.cc/40?u=" ++ sid

/-- The base variant's `join` handler (`server.js` lines 39–45): register
the user, `socket.emit('current_users', ...)` the full snapshot (which now
includes the sender) to the sender, and broadcast `user_joined` with
`liveUsers.get(socket.id)` — the record just stored — to the others. -/
def joinBase (reg : Registry) (sid username : String) :
    Registry × List Emission :=
  let u : LiveUser := ⟨sid, username, avatarFor sid, none, none⟩
  let reg' := regSet reg sid u
  (reg', [.toSender (.currentUsers (regValues reg')), .toOthers (.userJoined u)])

/-- The enhanced variant's connection handler (`part_000` line 39) emits the
`current_users` snapshot to the newly connected socket once, at connection
time — before any `join`. -/
def connectionSnapshotEnh (reg : Registry) : List Emission :=
  [.toSender (.currentUsers (regValues reg))]

/-- The enhanced variant's `join` handler (`part_000` lines 41–46): register
the user and broadcast `user_joined` to the others; no `current_users` is
emitted here. -/
def joinEnh (reg : Registry) (sid username : String) :
    Registry × List Emission :=
  let u : LiveUser := ⟨sid, username, avatarFor sid, none, none⟩
  (regSet reg sid u, [.toOthers (.userJoined u)])

/-- The `send-location` handler (identical in both variants): if no record
is registered for the sender the event does nothing at all; otherwise the
record's coordinates are mutated in place and the updated record is
broadcast (`receive-location`) to the others. -/
def sendLocation (reg : Registry) (sid : String) (latitude longitude : ℚ) :
    Registry × List Emission :=
  match regGet reg sid with
  | none => (reg, [])
  | some u =>
      let u' := { u with latitude := some latitude, longitude := some longitude }
      (regSet reg sid u', [.toOthers (.receiveLocation u')])

/-! ## Concrete inputs used by counterexamples and witnesses -/

/-- An empty `trackingCache` (over an opaque `Nat` payload). -/
def cexBaseCache : Cache Nat := fun _ => none

/-- First `POST /api/track` against the base handler: fresh fetch at `t=0`. -/
def cexBaseFirst : TrackOutcome Nat :=
  trackHandlerBase cexBaseCache "1Z12345678901234AB" 0 (Except.ok 0)

/-- Second request one minute later (well inside the 10-minute TTL). -/
def cexBaseSecond : TrackOutcome Nat :=
  trackHandlerBase cexBaseFirst.cache "1Z12345678901234AB" 60000 (Except.ok 1)

/-- A login run whose email-submission response contains the MFA/OTP
challenge marker. -/
def envMfa : AmzLoginEnv := ⟨true, true, false, false, false, true, false, false⟩

/-- A login run whose email-submission response contains the captcha
marker. -/
def envCaptcha : AmzLoginEnv :=
  ⟨true, true, false, false, false, false, true, false⟩

/-- A login run that goes through cleanly (form found, password accepted,
verification passes). -/
def envLoginOk : AmzLoginEnv :=
  ⟨true, true, false, true, false, false, false, false⟩

/-! ## Helper lemmas -/

theorem upsMatch_length {l : List Char} (h : upsMatch l = true) :
    l.length = 18 := by
  simp [upsMatch] at h
  exact h.1.1.1

theorem fedexMatch_length {l : List Char} (h : fedexMatch l = true) :
    l.length = 12 ∨ l.length = 15 := by
  simp [fedexMatch] at h
  exact h.1

theorem dhlMatch_length {l : List Char} (h : dhlMatch l = true) :
    l.length = 13 := by
  simp [dhlMatch] at h
  exact h.1.1.1

theorem uspsMatch_length {l : List Char} (h : uspsMatch l = true) :
    l.length = 22 ∨ l.length = 23 ∨ l.length = 24 := by
  simp [uspsMatch] at h
  rcases h.1.1.1 with (h | h) | h <;> omega

theorem amazonShape_length {p : Char → Bool} {l : List Char}
    (h : amazonShape p l = true) : l.length = 19 := by
  simp [amazonShape] at h
  exact h.1.1.1.1.1

/-- A string of the AMAZON shape (length 19) matches none of the four
earlier rules, whose languages have other lengths. -/
theorem amazonShape_detect {p : Char → Bool} {s : String}
    (h : amazonShape p s.data = true) :
    upsMatch s.data = false ∧ fedexMatch s.data = false ∧
      dhlMatch s.data = false ∧ uspsMatch s.data = false := by
  have hl := amazonShape_length h
  refine ⟨?_, ?_, ?_, ?_⟩ <;> by_contra hx <;>
    simp only [Bool.not_eq_false] at hx
  · have := upsMatch_length hx
    omega
  · have := fedexMatch_length hx
    omega
  · have := dhlMatch_length hx
    omega
  · have := uspsMatch_length hx
    omega

theorem regGet_regSet (reg : Registry) (k : String) (v : LiveUser) :
    regGet (regSet reg k v) k = some v := by
  induction reg with
  | nil => simp [regSet, regGet, List.find?]
  | cons p rest ih =>
      by_cases h : p.1 = k
      · simp [regSet, regGet, List.find?, h]
      · simpa [regSet, regGet, List.find?, h] using ih

/-- No rule of either variant matches the empty identifier. -/
theorem detect_empty :
    detectCarrier "" = none ∧ detectCarrierEnh "" = none := by decide

/-- Evaluation of the enhanced handler on a cache miss: the strategy runs
and its outcome decides everything downstream. -/
theorem trackEnh_eval {α : Type} {cache : Cache α} {tn : String} {c : Carrier}
    {t : Int} (f : Except String α)
    (hdet : detectCarrierEnh tn = some c)
    (hmiss : cacheMiss cache (carrierStr c ++ ":" ++ tn) t) :
    trackHandlerEnh cache tn t f =
      match f with
      | .ok d =>
          ⟨.ok d, cacheSet cache (carrierStr c ++ ":" ++ tn) ⟨d, t + CACHE_TTL⟩,
           1, [⟨tn, carrierStr c, d⟩]⟩
      | .error m =>
          ⟨.serverError (if m = "" then "An error occurred while tracking." else m),
           cache, 1, []⟩ := by
  have htn : ¬(tn = "") := by
    intro h
    rw [h, detect_empty.2] at hdet
    cases hdet
  rw [trackHandlerEnh, if_neg htn]
  rcases hcc : cache (carrierStr c ++ ":" ++ tn) with _ | e
  · simp only [hdet, hcc]
  · have hexp := hmiss e hcc
    simp only [hdet, hcc, if_neg (show ¬ t < e.expiry by omega)]

/-- Evaluation of the enhanced handler on a fresh cache hit: the stored
value is served, no strategy call, no broadcast, cache untouched. -/
theorem trackEnh_hit {α : Type} {cache : Cache α} {tn : String} {c : Carrier}
    {t : Int} {e : CacheEntry α} (f : Except String α)
    (hdet : detectCarrierEnh tn = some c)
    (hentry : cache (carrierStr c ++ ":" ++ tn) = some e)
    (hfresh : t < e.expiry) :
    trackHandlerEnh cache tn t f = ⟨.ok e.data, cache, 0, []⟩ := by
  have htn : ¬(tn = "") := by
    intro h
    rw [h, detect_empty.2] at hdet
    cases hdet
  rw [trackHandlerEnh, if_neg htn]
  simp only [hdet, hentry]
  rw [if_pos hfresh]

/-- Evaluation of the base handler on a cache miss. -/
theorem trackBase_eval {α : Type} {cache : Cache α} {tn : String} {c : Carrier}
    {t : Int} (f : Except String α)
    (hdet : detectCarrier tn = some c)
    (hmiss : cacheMiss cache (carrierStr c ++ ":" ++ tn) t) :
    trackHandlerBase cache tn t f =
      match f with
      | .ok d =>
          ⟨.ok d, cacheSet cache (carrierStr c ++ ":" ++ tn) ⟨d, t + CACHE_TTL⟩,
           1, []⟩
      | .error m =>
          ⟨.serverError (if m = "" then "An error occurred while tracking." else m),
           cache, 1, []⟩ := by
  have htn : ¬(tn = "") := by
    intro h
    rw [h, detect_empty.1] at hdet
    cases hdet
  rw [trackHandlerBase, if_neg htn]
  rcases hcc : cache (carrierStr c ++ ":" ++ tn) with _ | e
  · simp only [hdet, hcc]
  · have hexp := hmiss e hcc
    simp only [hdet, hcc, if_neg (show ¬ t < e.expiry by omega)]

/-- The entry the enhanced handler just stored is found again. -/
theorem cacheSet_get {α : Type} (cache : Cache α) (key : String)
    (e : CacheEntry α) : cacheSet cache key e key = some e := by
  simp [cacheSet]

/-! ## Claims -/

/-- Claim C3: `detectCarrier` (both variants) evaluates its five pattern
rules in the fixed order UPS, FEDEX, DHL, USPS, AMAZON and returns the tag
of the first rule whose pattern matches the whole identifier, `none`
(UNKNOWN) when none match; the six sample identifiers classify as stated. -/
theorem detect_first_match_and_examples :
    (∀ s : String, detectCarrier s = firstMatch detectRules s.data) ∧
    (∀ s : String, detectCarrierEnh s = firstMatch detectRulesEnh s.data) ∧
    detectCarrier "1Z12345678901234AB" = some Carrier.ups ∧
    detectCarrier "123456789012" = some Carrier.fedex ∧
    detectCarrier "AB123456789CD" = some Carrier.dhl ∧
    detectCarrier "9212345678901234567890" = some Carrier.usps ∧
    detectCarrier "ABC-1234567-1234567" = some Carrier.amazon ∧
    detectCarrier "not-a-code" = none ∧
    detectCarrierEnh "1Z12345678901234AB" = some Carrier.ups ∧
    detectCarrierEnh "123456789012" = some Carrier.fedex ∧
    detectCarrierEnh "AB123456789CD" = some Carrier.dhl ∧
    detectCarrierEnh "9212345678901234567890" = some Carrier.usps ∧
    detectCarrierEnh "ABC-1234567-1234567" = some Carrier.amazon ∧
    detectCarrierEnh "not-a-code" = none := by
  refine ⟨?_, ?_, by decide, by decide, by decide, by decide, by decide,
    by decide, by decide, by decide, by decide, by decide, by decide, by decide⟩
  · intro s
    cases h1 : upsMatch s.data <;>
      cases h2 : fedexMatch s.data <;>
        cases h3 : dhlMatch s.data <;>
          cases h4 : uspsMatch s.data <;>
            cases h5 : amazonShape amzUpperChar s.data <;>
              simp [detectCarrier, firstMatch, detectRules, List.find?,
                h1, h2, h3, h4, h5]
  · intro s
    cases h1 : upsMatch s.data <;>
      cases h2 : fedexMatch s.data <;>
        cases h3 : dhlMatch s.data <;>
          cases h4 : uspsMatch s.data <;>
            cases h5 : amazonShape amzAnyChar s.data <;>
              simp [detectCarrierEnh, firstMatch, detectRulesEnh, List.find?,
                h1, h2, h3, h4, h5]

/-- Claim C5 counterexample: in the base variant the AMAZON rule has no `/i`
flag, so `"ABC-1234567-1234567"` classifies as AMAZON while its lowercased
form `"abc-1234567-1234567"` classifies as UNKNOWN — the rule is not
case-insensitive there. -/
theorem amazon_case_cex :
    detectCarrier "ABC-1234567-1234567" = some Carrier.amazon ∧
    detectCarrier "abc-1234567-1234567" = none := by decide

/-- Claim C5 (amended): the enhanced variant's AMAZON rule is
case-insensitive — every identifier of shape `XXX-XXXXXXX-XXXXXXX` with `X`
a digit or an ASCII letter of either case yields AMAZON — while the base
variant's rule accepts the shape only with digits and upper-case letters. -/
theorem amazon_case_amended :
    (∀ s : String, amazonShape amzAnyChar s.data = true →
      detectCarrierEnh s = some Carrier.amazon) ∧
    (∀ s : String, amazonShape amzUpperChar s.data = true →
      detectCarrier s = some Carrier.amazon) := by
  constructor
  · intro s h
    obtain ⟨h1, h2, h3, h4⟩ := amazonShape_detect h
    simp [detectCarrierEnh, h1, h2, h3, h4, h]
  · intro s h
    obtain ⟨h1, h2, h3, h4⟩ := amazonShape_detect h
    simp [detectCarrier, h1, h2, h3, h4, h]

/-- Witness for `amazon_case_amended` at a mixed-case and an upper-case
identifier. -/
theorem amazon_case_amended_witness :
    detectCarrierEnh "aBc-1234567-1234567" = some Carrier.amazon ∧
    detectCarrier "XYZ-ABC1234-0000000" = some Carrier.amazon :=
  ⟨amazon_case_amended.1 "aBc-1234567-1234567" (by decide),
   amazon_case_amended.2 "XYZ-ABC1234-0000000" (by decide)⟩

/-- Claim C1 counterexample: at `delivered = true`, `now = 0`, the activity
returned by the generic strategy is `[now, now−1d, now−2d, now−3d]` — the
most recent event is first, the `now−3d` event is last, so the sequence is
neither ascending nor does it start with the `now−3d` event. -/
theorem generic_activity_order_cex :
    ((getGenericTracking "ups" "X" true 0).activity.map (fun e => e.timestamp)) =
      [0, -86400000, -172800000, -259200000] ∧
    ¬ (((getGenericTracking "ups" "X" true 0).activity.map
        (fun e => e.timestamp)).head? = some (-259200000)) ∧
    ¬ ((getGenericTracking "ups" "X" true 0).activity.map
        (fun e => e.timestamp)).Sorted (· ≤ ·) := by decide

/-- Claim C1 (amended): for every carrier, identifier, coin flip and clock
value, the activity sequence returned by the generic strategy is in strictly
descending chronological order — the most recent event (timestamped `now`)
first and the oldest (timestamped `now−3d`) last. -/
theorem generic_activity_descending :
    ∀ (carrier trackingNumber : String) (delivered : Bool) (now : Int),
      ((getGenericTracking carrier trackingNumber delivered now).activity.map
          (fun e => e.timestamp)) =
        [now, now - 1 * dayMs, now - 2 * dayMs, now - 3 * dayMs] ∧
      ((getGenericTracking carrier trackingNumber delivered now).activity.map
          (fun e => e.timestamp)).Sorted (· > ·) := by
  intro carrier trackingNumber delivered now
  have h : ((getGenericTracking carrier trackingNumber delivered now).activity.map
      (fun e => e.timestamp)) =
      [now, now - 1 * dayMs, now - 2 * dayMs, now - 3 * dayMs] := by
    cases delivered <;> simp [getGenericTracking]
  refine ⟨h, ?_⟩
  rw [h]
  simp [List.sorted_cons, dayMs]

/-- Claim C4 counterexample: at `delivered = false`, `now = 0`, the 4th
(last) returned ActivityEvent is the oldest stop, `"Package received by
carrier"` at `now−3d` — not `"Out for delivery"` and not timestamped
`now+1d`; moreover even the final stop (returned first) is timestamped
`now`, not `now+1d`. -/
theorem generic_final_event_cex :
    (((getGenericTracking "ups" "X" false 0).activity.get? 3).map
        (fun e => e.status)) = some "Package received by carrier" ∧
    (((getGenericTracking "ups" "X" false 0).activity.get? 3).map
        (fun e => e.timestamp)) = some (-259200000) ∧
    ¬ ((((getGenericTracking "ups" "X" false 0).activity.get? 3).map
          (fun e => e.status)) = some "Delivered" ∨
       (((getGenericTracking "ups" "X" false 0).activity.get? 3).map
          (fun e => e.status)) = some "Out for delivery") ∧
    (((getGenericTracking "ups" "X" false 0).activity.get? 0).map
        (fun e => e.timestamp)) = some 0 ∧
    (0 : Int) ≠ 0 + dayMs := by decide

/-- Claim C4 (amended): in every generic result the *first* returned
ActivityEvent is the final stop — `"Delivered"` when the delivered branch is
taken, `"Out for delivery"` otherwise, timestamped at `now` in both branches
— and `estimatedDelivery` is consistent with the branch: today's date when
delivered, tomorrow's when in transit. -/
theorem generic_final_event_amended :
    ∀ (carrier trackingNumber : String) (delivered : Bool) (now : Int),
      ((getGenericTracking carrier trackingNumber delivered now).activity.head?).map
          (fun e => (e.status, e.timestamp, e.location)) =
        some (if delivered then "Delivered" else "Out for delivery", now,
          "New York, NY") ∧
      (getGenericTracking carrier trackingNumber delivered now).estimatedDelivery =
        (if delivered then localeDateString now
         else localeDateString (now + dayMs)) ∧
      (getGenericTracking carrier trackingNumber delivered now).status =
        (if delivered then "Delivered" else "In Transit") := by
  intro carrier trackingNumber delivered now
  cases delivered <;> simp [getGenericTracking]

/-- Claim C2 counterexample: against the base variant's handler (which
contains no `io.emit` at all) two calls within the TTL produce the cached
value twice and a single strategy invocation, but zero `tracking_update`
broadcasts — not exactly one. -/
theorem track_base_no_broadcast_cex :
    cexBaseFirst.response = TrackResponse.ok 0 ∧
    cexBaseFirst.strategyCalls = 1 ∧
    cexBaseSecond.response = TrackResponse.ok 0 ∧
    cexBaseSecond.strategyCalls = 0 ∧
    cexBaseFirst.broadcasts = [] ∧
    cexBaseSecond.broadcasts = [] ∧
    ¬ ((cexBaseFirst.broadcasts ++ cexBaseSecond.broadcasts).length = 1) := by
  decide

/-- Claim C2 (amended): for every detected identifier, a miss followed by a
call within the 10-minute TTL serves the identical result from the cache
with no second strategy invocation, no further broadcast and no cache
change, and a call at or after `t1 + CACHE_TTL` treats the entry as absent
and invokes the strategy again; the fresh fetch emits exactly one
`tracking_update` in the enhanced variant, while the base variant's handler
never emits any broadcast. -/
theorem track_cache_ttl_amended :
    (∀ (α : Type) (cache : Cache α) (tn : String) (c : Carrier) (t1 : Int)
        (d : α),
      detectCarrierEnh tn = some c →
      cacheMiss cache (carrierStr c ++ ":" ++ tn) t1 →
      (trackHandlerEnh cache tn t1 (Except.ok d)).response = .ok d ∧
      (trackHandlerEnh cache tn t1 (Except.ok d)).strategyCalls = 1 ∧
      (trackHandlerEnh cache tn t1 (Except.ok d)).broadcasts =
        [⟨tn, carrierStr c, d⟩] ∧
      (∀ (t2 : Int) (f2 : Except String α), t2 < t1 + CACHE_TTL →
        (trackHandlerEnh (trackHandlerEnh cache tn t1 (Except.ok d)).cache tn t2
            f2).response = .ok d ∧
        (trackHandlerEnh (trackHandlerEnh cache tn t1 (Except.ok d)).cache tn t2
            f2).strategyCalls = 0 ∧
        (trackHandlerEnh (trackHandlerEnh cache tn t1 (Except.ok d)).cache tn t2
            f2).broadcasts = [] ∧
        (trackHandlerEnh (trackHandlerEnh cache tn t1 (Except.ok d)).cache tn t2
            f2).cache = (trackHandlerEnh cache tn t1 (Except.ok d)).cache) ∧
      (∀ (t3 : Int) (f3 : Except String α), t1 + CACHE_TTL ≤ t3 →
        (trackHandlerEnh (trackHandlerEnh cache tn t1 (Except.ok d)).cache tn t3
            f3).strategyCalls = 1)) ∧
    (∀ (β : Type) (cache : Cache β) (tn : String) (t : Int)
        (f : Except String β), (trackHandlerBase cache tn t f).broadcasts = []) := by
  constructor
  · intro α cache tn c t1 d hdet hmiss
    have h1 := trackEnh_eval (Except.ok d) hdet hmiss
    rw [h1]
    refine ⟨rfl, rfl, rfl, ?_, ?_⟩
    · intro t2 f2 ht2
      have hget : cacheSet cache (carrierStr c ++ ":" ++ tn)
          ⟨d, t1 + CACHE_TTL⟩ (carrierStr c ++ ":" ++ tn) =
          some ⟨d, t1 + CACHE_TTL⟩ := cacheSet_get _ _ _
      have h2 := trackEnh_hit (e := ⟨d, t1 + CACHE_TTL⟩) f2 hdet hget ht2
      rw [h2]
      exact ⟨rfl, rfl, rfl, rfl⟩
    · intro t3 f3 ht3
      have hmiss3 : cacheMiss (cacheSet cache (carrierStr c ++ ":" ++ tn)
          ⟨d, t1 + CACHE_TTL⟩) (carrierStr c ++ ":" ++ tn) t3 := by
        intro e he
        rw [cacheSet_get] at he
        cases he
        simpa using ht3
      have h3 := trackEnh_eval f3 hdet hmiss3
      rw [h3]
      cases f3 <;> rfl
  · intro β cache tn t f
    simp only [trackHandlerBase]
    repeat' split
    all_goals rfl

set_option maxRecDepth 4096 in
/-- Witness for `track_cache_ttl_amended`: empty cache, a UPS identifier,
first call at `t=0`, second at `t=60000`, third at `t=CACHE_TTL`. -/
theorem track_cache_ttl_amended_witness :
    (trackHandlerEnh cexBaseCache "1Z12345678901234AB" 0 (Except.ok 7)).response =
      .ok 7 ∧
    (trackHandlerEnh cexBaseCache "1Z12345678901234AB" 0 (Except.ok 7)).broadcasts =
      [⟨"1Z12345678901234AB", "ups", 7⟩] ∧
    (trackHandlerEnh (trackHandlerEnh cexBaseCache "1Z12345678901234AB" 0
        (Except.ok 7)).cache "1Z12345678901234AB" 60000
        (Except.ok 8)).strategyCalls = 0 ∧
    (trackHandlerEnh (trackHandlerEnh cexBaseCache "1Z12345678901234AB" 0
        (Except.ok 7)).cache "1Z12345678901234AB" CACHE_TTL
        (Except.ok 9)).strategyCalls = 1 := by
  have h := track_cache_ttl_amended.1 Nat cexBaseCache "1Z12345678901234AB"
    Carrier.ups 0 7 (by decide) (fun e he => by cases he)
  refine ⟨h.1, h.2.2.1, (h.2.2.2.1 60000 (Except.ok 8) (by decide)).2.1,
    h.2.2.2.2 CACHE_TTL (Except.ok 9) (by simp)⟩

/-- Claim C6: when the carrier is detected, the cache misses, and the
dispatched strategy fails with a (non-empty) message, both handlers return a
500 carrying that message unchanged, leave the cache exactly as it was, and
emit no `tracking_update` broadcast. -/
theorem track_strategy_failure_propagates :
    (∀ (α : Type) (cache : Cache α) (tn : String) (c : Carrier) (t : Int)
        (m : String),
      detectCarrierEnh tn = some c →
      cacheMiss cache (carrierStr c ++ ":" ++ tn) t →
      m ≠ "" →
      trackHandlerEnh cache tn t (Except.error m) =
        ⟨.serverError m, cache, 1, []⟩) ∧
    (∀ (β : Type) (cache : Cache β) (tn : String) (c : Carrier) (t : Int)
        (m : String),
      detectCarrier tn = some c →
      cacheMiss cache (carrierStr c ++ ":" ++ tn) t →
      m ≠ "" →
      trackHandlerBase cache tn t (Except.error m) =
        ⟨.serverError m, cache, 1, []⟩) := by
  constructor
  · intro α cache tn c t m hdet hmiss hm
    rw [trackEnh_eval (Except.error m) hdet hmiss]
    simp [hm]
  · intro β cache tn c t m hdet hmiss hm
    rw [trackBase_eval (Except.error m) hdet hmiss]
    simp [hm]

/-- Witness for `track_strategy_failure_propagates` on both handlers. -/
theorem track_strategy_failure_witness :
    trackHandlerEnh cexBaseCache "1Z12345678901234AB" 0
        (Except.error "Amazon login process failed: boom") =
      ⟨.serverError "Amazon login process failed: boom", cexBaseCache, 1, []⟩ ∧
    trackHandlerBase cexBaseCache "1Z12345678901234AB" 0
        (Except.error "Amazon login process failed: boom") =
      ⟨.serverError "Amazon login process failed: boom", cexBaseCache, 1, []⟩ :=
  ⟨track_strategy_failure_propagates.1 Nat cexBaseCache "1Z12345678901234AB"
      Carrier.ups 0 "Amazon login process failed: boom" (by decide)
      (fun e he => by cases he) (by decide),
   track_strategy_failure_propagates.2 Nat cexBaseCache "1Z12345678901234AB"
      Carrier.ups 0 "Amazon login process failed: boom" (by decide)
      (fun e he => by cases he) (by decide)⟩

/-- Claim C7: when the page parser yields zero structured tracking events
the Amazon strategy still returns a result whose activity is the single
synthesized event carrying the page's top-level status text (the placeholder
`"Status not found"` when even that is missing); the parsing stage has no
failure path at all — every parsed page yields a result with non-empty
activity — so in particular it never fails once any status text was
extracted. -/
theorem amazon_zero_events_synthesized :
    ∀ (orderId nowIso : String) (page : AmzPage),
      page.events = [] →
      (amazonFromPage orderId nowIso page).activity =
        [⟨page.statusText.getD "Status not found",
          "Current status: " ++ page.statusText.getD "Status not found",
          "", nowIso, none⟩] ∧
      (∀ st : String, page.statusText = some st →
        (amazonFromPage orderId nowIso page).activity =
          [⟨st, "Current status: " ++ st, "", nowIso, none⟩]) ∧
      (∀ page2 : AmzPage, (amazonFromPage orderId nowIso page2).activity ≠ []) := by
  intro orderId nowIso page hev
  refine ⟨?_, ?_, ?_⟩
  · simp [amazonFromPage, hev]
  · intro st hst
    simp [amazonFromPage, hev, hst]
  · intro page2
    rcases hev2 : page2.events with _ | ⟨e, rest⟩ <;>
      simp [amazonFromPage, hev2]

/-- Witness for `amazon_zero_events_synthesized` at a page with status text
but no structured events. -/
theorem amazon_zero_events_witness :
    (amazonFromPage "111-1234567-1234567" "2026-10-12T00:00:00.000Z"
        ⟨some "Arriving today", none, none, []⟩).activity =
      [⟨"Arriving today", "Current status: Arriving today", "",
        "2026-10-12T00:00:00.000Z", none⟩] :=
  (amazon_zero_events_synthesized "111-1234567-1234567"
      "2026-10-12T00:00:00.000Z" ⟨some "Arriving today", none, none, []⟩
      rfl).2.1 "Arriving today" rfl

set_option maxRecDepth 8192 in
/-- Claim C8 counterexample: after a login run that hits the MFA/OTP
challenge the session state is merely `amazonSessionActive = false`; a
subsequent fetch from that state passes the guard and attempts a full new
login — which can even succeed — so the failed state is neither terminal
nor non-retryable. -/
theorem amazon_session_retry_cex :
    ensureAmazonSession false envMfa =
      ⟨false, true, .error (wrapLoginErr mfaMsg)⟩ ∧
    (ensureAmazonSession false envLoginOk).loginAttempted = true ∧
    ensureAmazonSession false envLoginOk = ⟨true, true, .ok ()⟩ := by decide

/-- Claim C8 (amended): detecting an MFA/OTP or captcha challenge clears the
single boolean session flag and throws, exactly like every other login
failure; the two challenges are ordinary `Error`s distinguished only by
message text (wrapped in `"Amazon login process failed: "`), not distinct
error kinds; the state is not terminal — every call that finds the flag
cleared attempts a fresh login, and the flag ends up set only when the full
login flow succeeded. -/
theorem amazon_session_flag_amended :
    (∀ env : AmzLoginEnv, (ensureAmazonSession false env).loginAttempted = true) ∧
    (∀ env : AmzLoginEnv,
      env.credsConfigured = true → env.initialFormPresent = true →
      env.emailRespFormPresent = false → env.emailRespPasswordPrompt = false →
      env.emailRespMfaChallenge = true →
      ensureAmazonSession false env =
        ⟨false, true, .error (wrapLoginErr mfaMsg)⟩) ∧
    (∀ env : AmzLoginEnv,
      env.credsConfigured = true → env.initialFormPresent = true →
      env.emailRespFormPresent = false → env.emailRespPasswordPrompt = false →
      env.emailRespMfaChallenge = false → env.emailRespCaptchaChallenge = true →
      ensureAmazonSession false env =
        ⟨false, true, .error (wrapLoginErr captchaMsg)⟩) ∧
    wrapLoginErr mfaMsg ≠ wrapLoginErr captchaMsg ∧
    (∀ (active : Bool) (env : AmzLoginEnv),
      (ensureAmazonSession active env).active = true →
      active = true ∨ loginFlow env = .ok ()) := by
  refine ⟨?_, ?_, ?_, by decide, ?_⟩
  · intro env
    rcases hc : env.credsConfigured <;>
      simp only [ensureAmazonSession, Bool.false_eq_true, if_false, hc] <;>
      [skip; rcases hf : loginFlow env with _ | m] <;> rfl
  · intro env h1 h2 h3 h4 h5
    simp [ensureAmazonSession, loginFlow, h1, h2, h3, h4, h5]
  · intro env h1 h2 h3 h4 h5 h6
    simp [ensureAmazonSession, loginFlow, h1, h2, h3, h4, h5, h6]
  · intro active env hact
    cases active with
    | true => exact Or.inl rfl
    | false =>
        refine Or.inr ?_
        rcases hf : loginFlow env with m | u
        · exfalso
          rw [ensureAmazonSession] at hact
          rcases hc : env.credsConfigured with _ | _ <;> simp [hc, hf] at hact
        · cases u
          rfl

/-- Witness for `amazon_session_flag_amended` at the captcha environment. -/
theorem amazon_session_flag_witness :
    (ensureAmazonSession false envCaptcha).loginAttempted = true ∧
    ensureAmazonSession false envCaptcha =
      ⟨false, true, .error (wrapLoginErr captchaMsg)⟩ ∧
    (ensureAmazonSession true envCaptcha).active = true ∧
    (true = true ∨ loginFlow envCaptcha = .ok ()) :=
  ⟨amazon_session_flag_amended.1 envCaptcha,
   amazon_session_flag_amended.2.2.1 envCaptcha rfl rfl rfl rfl rfl rfl,
   rfl,
   amazon_session_flag_amended.2.2.2.2 true envCaptcha rfl⟩

/-- Claim C9 counterexample: in the enhanced variant a `join` emits only the
`user_joined` broadcast to the others; the sender receives no
`current_users` snapshot in response to the join (it was sent once, at
connection time, before any join). -/
theorem join_enh_no_snapshot_cex :
    (joinEnh [] "s1" "alice").2 =
      [Emission.toOthers (SocketEvent.userJoined
        ⟨"s1", "alice", "https://i.pravatar.cc/40?u=s1", none, none⟩)] ∧
    ((joinEnh [] "s1" "alice").2.all fun e =>
      match e with
      | .toSender (.currentUsers _) => false
      | _ => true) = true := by decide

/-- Claim C9 (amended): in the base variant the join sender receives the
full `current_users` snapshot of the updated registry (including their own
new record) while all other sockets — not the sender — receive `user_joined`
with the new record; in the enhanced variant the join only broadcasts
`user_joined` to the others, the snapshot being emitted to each socket once
at connection time. -/
theorem join_behavior_amended :
    ∀ (reg : Registry) (sid username : String),
      (joinBase reg sid username).1 =
        regSet reg sid ⟨sid, username, avatarFor sid, none, none⟩ ∧
      regGet (joinBase reg sid username).1 sid =
        some ⟨sid, username, avatarFor sid, none, none⟩ ∧
      (joinBase reg sid username).2 =
        [Emission.toSender (SocketEvent.currentUsers
            (regValues (joinBase reg sid username).1)),
         Emission.toOthers (SocketEvent.userJoined
            ⟨sid, username, avatarFor sid, none, none⟩)] ∧
      (joinEnh reg sid username).1 =
        regSet reg sid ⟨sid, username, avatarFor sid, none, none⟩ ∧
      (joinEnh reg sid username).2 =
        [Emission.toOthers (SocketEvent.userJoined
            ⟨sid, username, avatarFor sid, none, none⟩)] ∧
      connectionSnapshotEnh reg =
        [Emission.toSender (SocketEvent.currentUsers (regValues reg))] := by
  intro reg sid username
  exact ⟨rfl, regGet_regSet reg sid _, rfl, rfl, rfl, rfl⟩

/-- Claim C10: a `send-location` event from a connection with no registered
LiveUser is silently dropped — the registry is returned unchanged and no
`receive-location` broadcast is emitted. -/
theorem send_location_unjoined_noop :
    ∀ (reg : Registry) (sid : String) (latitude longitude : ℚ),
      regGet reg sid = none →
      sendLocation reg sid latitude longitude = (reg, []) := by
  intro reg sid latitude longitude h
  simp [sendLocation, h]

/-- Witness for `send_location_unjoined_noop` on the empty registry. -/
theorem send_location_unjoined_witness :
    sendLocation [] "s1" 1 2 = ([], []) :=
  send_location_unjoined_noop [] "s1" 1 2 rfl

end Proje
